import Mathlib

/-!
Verification development for a collection of four small FastAPI services that
forward user content to a local Ollama inference backend:

* Code-Review-Assistant-AI  (backend/main.py, backend/services/llm_service.py,
  backend/models.py)
* ai-meeting-notes-generator (backend/main.py)
* medical-notes-structuring-assistant (backend/main.py)
* Image-Caption-Generator-with-LLaVA (backend/main.py, backend/services.py)

The network call made by the `requests` library is abstracted as an oracle:
either the single HTTP POST's outcome is passed in directly (`ReqOutcome`), or
the backend is a function from the `InferenceRequest` actually sent to an
outcome.  Python strings are modelled as Lean `String`; Python's
whitespace-based `strip`/`split` are reproduced over the underlying character
lists (restricted to the ASCII whitespace characters, which is all these
services' logic distinguishes).
-/

/-- The ASCII whitespace characters recognised by Python's `str.strip()` and
`str.split()`. -/
def pyIsSpace (c : Char) : Bool :=
  c == ' ' || c == '\t' || c == '\n' || c == '\r' || c == '\x0b' || c == '\x0c'

/-- Drop whitespace from both ends of a character list. -/
def pyStripList (l : List Char) : List Char :=
  ((l.dropWhile pyIsSpace).reverse.dropWhile pyIsSpace).reverse

/-- Python's `str.strip()` with no arguments. -/
def pyStrip (s : String) : String := String.mk (pyStripList s.data)

/-- Count maximal runs of non-whitespace characters; the `inToken` flag records
whether the previous character was inside a token. -/
def wordCountAux : List Char → Bool → Nat
  | [], _ => 0
  | c :: rest, inToken =>
    if pyIsSpace c then wordCountAux rest false
    else (if inToken then 0 else 1) + wordCountAux rest true

/-- Python's `len(s.split())`: the number of whitespace-delimited tokens. -/
def wordCount (s : String) : Nat := wordCountAux s.data false

/-- Substring test on character lists: does `needle` occur contiguously? -/
def containsList (needle : List Char) : List Char → Bool
  | [] => needle.isEmpty
  | c :: rest => needle.isPrefixOf (c :: rest) || containsList needle rest

/-- Python's `needle in hay` on strings. -/
def pyContains (hay needle : String) : Bool := containsList needle.data hay.data

/-- Python's `str.lower()` (ASCII case mapping). -/
def pyLower (s : String) : String := String.mk (s.data.map Char.toLower)

/-- Python truthiness of an optional string: `None` and `""` are falsy. -/
def pyTruthy : Option String → Bool
  | none => false
  | some s => !(s == "")

/-- The outcome of one HTTP request issued through the `requests` library:
either a response arrived (with its status code and the optional string value
of the JSON body's `"response"` field), or one of the library's exception
classes was raised. -/
inductive ReqOutcome where
  | success (status : Nat) (response : Option String)
  | connError (msg : String)
  | timeout (msg : String)
  | otherExn (msg : String)
  deriving DecidableEq

/-- The JSON body `{model, prompt, stream:false}` POSTed to the backend's
generate endpoint. -/
structure InferenceRequest where
  model : String
  prompt : String
  stream : Bool
  deriving DecidableEq

/-- A FastAPI `HTTPException` as observed at the HTTP boundary. -/
structure HTTPError where
  status_code : Nat
  detail : String
  deriving DecidableEq

/-- The status code of a handler result, when it is an error. -/
def errStatus {α : Type} : Except HTTPError α → Option Nat
  | .error e => some e.status_code
  | .ok _ => none

/-- The status code carried by a request outcome, when a response arrived. -/
def outcomeStatus : ReqOutcome → Option Nat
  | .success s _ => some s
  | .connError _ => none
  | .timeout _ => none
  | .otherExn _ => none

/-- Message text of the exception `requests.Response.raise_for_status` raises
on a 4xx/5xx status.  The exact wording comes from the external `requests`
library and is not modelled precisely; no claim depends on it. -/
def statusErrMsg (status : Nat) : String :=
  "HTTP error for status " ++ toString status

/-- Message text of the `KeyError` raised by indexing a JSON dict at a missing
`"response"` key; exact wording not modelled, no claim depends on it. -/
def keyErrorMsg : String := "KeyError response"

/-! ## Code-Review-Assistant-AI: prompt templates (llm_service.py, REVIEW_PROMPTS)

Each Python template contains the two placeholders `{language}` (first) and
`{code}` (second), each exactly once; `str.format` therefore interpolates as
`pre ++ language ++ mid ++ code ++ post`.  The templates are stored in that
split form. -/

structure PromptTemplate where
  pre : String
  mid : String
  post : String
  deriving DecidableEq

/-- `str.format(code=code, language=language)` on a template. -/
def renderTemplate (t : PromptTemplate) (code language : String) : String :=
  t.pre ++ language ++ t.mid ++ code ++ t.post

def generalPrompt : PromptTemplate :=
  { pre := "You are a senior developer performing a comprehensive code review.\nReview the following code for:\n- Bugs and potential issues\n- Code quality and best practices\n- Performance improvements\n- Readability and maintainability\n\nBe specific with line numbers when pointing out issues. Format your response clearly.\n\nCode to review:\n```"
    mid := "\n"
    post := "\n```" }

def bugsPrompt : PromptTemplate :=
  { pre := "You are a bug detection expert. Analyze the following code ONLY for bugs and errors.\nFocus on:\n- Logic errors\n- Off-by-one errors\n- Null/undefined handling\n- Edge cases\n- Runtime exceptions\n\nList each bug with its location and suggested fix.\n\nCode to analyze:\n```"
    mid := "\n"
    post := "\n```" }

def qualityPrompt : PromptTemplate :=
  { pre := "You are a code quality expert. Review the following code for best practices.\nFocus on:\n- Naming conventions\n- Code organization\n- DRY principle violations\n- SOLID principles\n- Documentation/comments\n\nProvide specific suggestions for improvement.\n\nCode to review:\n```"
    mid := "\n"
    post := "\n```" }

def performancePrompt : PromptTemplate :=
  { pre := "You are a performance optimization expert. Analyze the following code for efficiency.\nFocus on:\n- Time complexity\n- Space complexity\n- Inefficient operations\n- Memory leaks\n- Caching opportunities\n\nProvide specific optimization suggestions.\n\nCode to analyze:\n```"
    mid := "\n"
    post := "\n```" }

def securityPrompt : PromptTemplate :=
  { pre := "You are a security expert. Analyze the following code for vulnerabilities.\nFocus on:\n- Injection vulnerabilities\n- Authentication/authorization issues\n- Data exposure risks\n- Input validation\n- Secure coding practices\n\nList each vulnerability with severity and remediation steps.\n\nCode to analyze:\n```"
    mid := "\n"
    post := "\n```" }

/-- `REVIEW_PROMPTS.get(review_type, REVIEW_PROMPTS["general"])`: dictionary
lookup with the `"general"` template as the default. -/
def getReviewPrompt (review_type : String) : PromptTemplate :=
  if review_type = "general" then generalPrompt
  else if review_type = "bugs" then bugsPrompt
  else if review_type = "quality" then qualityPrompt
  else if review_type = "performance" then performancePrompt
  else if review_type = "security" then securityPrompt
  else generalPrompt

/-! ## Code-Review-Assistant-AI: llm_service.py -/

/-- `LLMService._detect_language`: ordered best-effort detection from lexical
markers; `\x7b` is the literal opening-brace character of the Go pattern. -/
def detect_language (code : String) : String :=
  let code_lower := pyLower code
  if pyContains code "def " && pyContains code ":" then "python"
  else if pyContains code "function " || pyContains code "const " || pyContains code "let " then "javascript"
  else if pyContains code "public class " || pyContains code "private " then "java"
  else if pyContains code "#include" then "cpp"
  else if pyContains code "func " && pyContains code "\x7b" then "go"
  else if pyContains code_lower "<html" || pyContains code_lower "<!doctype" then "html"
  else if pyContains code_lower "select " && pyContains code_lower "from " then "sql"
  else "code"

/-- `if not language: language = self._detect_language(code)` — an absent or
empty language hint triggers detection. -/
def effectiveLanguage (language : Option String) (code : String) : String :=
  match language with
  | some l => if l = "" then detect_language code else l
  | none => detect_language code

/-- Error classification produced by `LLMService.get_review`: the exception
classes it can raise to its caller. -/
inductive LLMError where
  | connectionError (msg : String)
  | timeoutError (msg : String)
  | other (msg : String)
  deriving DecidableEq

/-- `LLMService.check_connection`: GET the tags endpoint with a 5-second
timeout; `True` exactly on status 200, `False` on any other status and on any
exception. -/
def check_connection (outcome : ReqOutcome) : Bool :=
  match outcome with
  | .success status _ => status == 200
  | .connError _ => false
  | .timeout _ => false
  | .otherExn _ => false

/-- `LLMService.get_review`: select the template (defaulting to general),
detect the language when no truthy hint is given, render the prompt, POST it,
and classify the outcome.  A non-200 status raises a plain `Exception` that the
final handler re-raises; a 200 response yields `result.get("response", "").strip()`. -/
def get_review (code review_type : String) (language : Option String)
    (backend : InferenceRequest → ReqOutcome) : Except LLMError String :=
  let prompt := renderTemplate (getReviewPrompt review_type) code (effectiveLanguage language code)
  match backend { model := "codellama", prompt := prompt, stream := false } with
  | .success status body =>
      if status ≠ 200 then .error (.other ("Ollama returned status " ++ toString status))
      else .ok (pyStrip (body.getD ""))
  | .connError _ => .error (.connectionError "Cannot connect to Ollama. Is it running?")
  | .timeout _ => .error (.timeoutError "Request timed out. The code might be too long or complex.")
  | .otherExn m => .error (.other m)

/-! ## Code-Review-Assistant-AI: models.py and main.py -/

/-- `CodeReviewRequest` with its pydantic defaults (`review_type=general`,
`language=None`).  The `ReviewType` enum is represented by its string value. -/
structure CodeReviewRequest where
  code : String
  review_type : String := "general"
  language : Option String := none
  deriving DecidableEq

structure CodeStats where
  lines : Nat
  characters : Nat
  words : Nat
  deriving DecidableEq

/-- The derived statistics of `review_code` (main.py lines 96-99): newline
count plus one, raw length, and whitespace-token count of the input. -/
def codeStats (code : String) : CodeStats :=
  { lines := code.data.count '\n' + 1
    characters := code.length
    words := wordCount code }

/-- `CodeReviewResponse`; wall-clock `response_time` is an input to the model
(the code measures it with `time.time()`). -/
structure CodeReviewResponse where
  review : String
  review_type : String
  stats : CodeStats
  response_time : Nat
  deriving DecidableEq

/-- `review_code` (`POST /review`): validation, dispatch through
`llm_service.get_review`, stats, and the exception-to-status mapping.  The
second component counts how many POSTs to the generate endpoint were issued
(`get_review` performs exactly one). -/
def review_code (req : CodeReviewRequest) (backend : InferenceRequest → ReqOutcome)
    (elapsed : Nat) : Except HTTPError CodeReviewResponse × Nat :=
  if pyStrip req.code = "" then
    (.error { status_code := 400, detail := "Code cannot be empty" }, 0)
  else if req.code.length > 50000 then
    (.error { status_code := 400, detail := "Code too long. Maximum 50,000 characters allowed." }, 0)
  else
    match get_review req.code req.review_type req.language backend with
    | .ok review =>
        (.ok { review := review, review_type := req.review_type,
               stats := codeStats req.code, response_time := elapsed }, 1)
    | .error (.connectionError _) =>
        (.error { status_code := 503, detail := "Cannot connect to Ollama. Please ensure it is running." }, 1)
    | .error (.timeoutError _) =>
        (.error { status_code := 503, detail := "Request timed out. Try with shorter code." }, 1)
    | .error (.other m) =>
        (.error { status_code := 500, detail := "An error occurred: " ++ m }, 1)

/-- The body returned by the legacy endpoint: only the review text. -/
structure LegacyReply where
  review : String
  deriving DecidableEq

/-- Pydantic construction of `CodeReviewRequest` (models.py line 20): `code`
carries `min_length=1`, so construction fails with a `ValidationError` on the
empty string and otherwise applies the field defaults. -/
def mkCodeReviewRequest (code : String) : Option CodeReviewRequest :=
  if 1 ≤ code.length then some { code := code } else none

/-- `review_code_legacy` (`POST /review/`): builds `CodeReviewRequest(code=code)`
inside the handler — a pydantic `ValidationError` there is unhandled and
surfaces as FastAPI's generic HTTP 500 with no backend call — then calls
`review_code` and returns `{"review": ...}`; an `HTTPException` propagates
unchanged. -/
def review_code_legacy (code : String) (backend : InferenceRequest → ReqOutcome)
    (elapsed : Nat) : Except HTTPError LegacyReply × Nat :=
  match mkCodeReviewRequest code with
  | none => (.error { status_code := 500, detail := "Internal Server Error" }, 0)
  | some req =>
      match review_code req backend elapsed with
      | (.ok resp, n) => (.ok { review := resp.review }, n)
      | (.error e, n) => (.error e, n)

/-! ## ai-meeting-notes-generator: backend/main.py -/

/-- `file.filename.lower().split('.')[-1]`: the characters after the last dot
of the lowercased name (the whole name when it has no dot). -/
def fileExtension (filename : String) : String :=
  String.mk (((pyLower filename).data.reverse.takeWhile (fun c => c ≠ '.')).reverse)

/-- The validation prefix of `process_audio` (main.py lines 189-198): a falsy
filename or an extension outside the supported list is rejected with HTTP 400
before any transcription or Ollama call. -/
def process_audio_validate (filename : Option String) : Option HTTPError :=
  if pyTruthy filename then
    if fileExtension (filename.getD "") = "mp3" ∨ fileExtension (filename.getD "") = "wav" ∨
        fileExtension (filename.getD "") = "m4a" ∨ fileExtension (filename.getD "") = "flac" ∨
        fileExtension (filename.getD "") = "ogg" then
      none
    else
      some { status_code := 400,
             detail := "Unsupported file format: " ++ fileExtension (filename.getD "") ++
               ". Supported formats: mp3, wav, m4a, flac, ogg" }
  else some { status_code := 400, detail := "No file provided" }

/-- `call_ollama`: POST the prompt with a 120-second timeout;
`raise_for_status()` raises an `HTTPError` exactly for statuses 400-599,
caught by the generic handler (500); on any other status,
`response.json()["response"]` raises a `KeyError` (also 500) when the field is
absent; connection failure maps to 503 and timeout to 504.  Endpoint handlers
re-raise the `HTTPException` unchanged, so these are the boundary status
codes. -/
def call_ollama (outcome : ReqOutcome) : Except HTTPError String :=
  match outcome with
  | .success s body =>
      if 400 ≤ s ∧ s < 600 then
        .error { status_code := 500, detail := "Error calling Ollama: " ++ statusErrMsg s }
      else
        match body with
        | some text => .ok (pyStrip text)
        | none => .error { status_code := 500, detail := "Error calling Ollama: " ++ keyErrorMsg }
  | .connError _ =>
      .error { status_code := 503,
               detail := "Ollama service is not available. Please ensure Ollama is running." }
  | .timeout _ =>
      .error { status_code := 504, detail := "Request to Ollama timed out. Please try again." }
  | .otherExn m =>
      .error { status_code := 500, detail := "Error calling Ollama: " ++ m }

/-! ## medical-notes-structuring-assistant: backend/main.py -/

/-- Result of `query_llama`: either a dict carrying an `"error"` key, or the
backend's JSON body (whose optional `"response"` field is modelled). -/
inductive LlamaResult where
  | errorDict (msg : String)
  | body (response : Option String)
  deriving DecidableEq

/-- `query_llama`: POST the prompt; a 404 status is special-cased to a
model-not-found error dict before `raise_for_status()`; every exception —
connection refused, timeout, or the `HTTPError` that `raise_for_status()`
raises exactly for statuses 400-599 — is converted to an error dict (never
re-raised).  Punctuation of the 404 message is simplified; no claim depends on
the text. -/
def query_llama (model : String) (outcome : ReqOutcome) : LlamaResult :=
  match outcome with
  | .success 404 _ =>
      .errorDict ("Model " ++ model ++ " not found. Run ollama pull " ++ model ++ " to download it.")
  | .success s body =>
      if 400 ≤ s ∧ s < 600 then .errorDict ("Ollama Error: " ++ statusErrMsg s)
      else .body body
  | .connError _ =>
      .errorDict "Cannot connect to Ollama. Please ensure Ollama is running on port 11434."
  | .timeout _ =>
      .errorDict "Request timed out. The model is taking too long to respond."
  | .otherExn m => .errorDict ("Ollama Error: " ++ m)

/-- The body returned by `POST /extract/` on success; `\x7b\x7d` is the
two-character placeholder `{}` substituted for a missing response field. -/
structure MedicalReply where
  structured : String
  model_used : String
  note_length : Nat
  deriving DecidableEq

/-- `extract_medical_info` (`POST /extract/`): empty-note validation (400),
then `query_llama`; any error dict becomes HTTP 500, and on success the
structured text is `result.get("response", "\x7b\x7d").strip()`. -/
def extract_medical_info (note model : String) (outcome : ReqOutcome) :
    Except HTTPError MedicalReply :=
  if pyStrip note = "" then
    .error { status_code := 400, detail := "Note cannot be empty" }
  else
    match query_llama model outcome with
    | .errorDict msg => .error { status_code := 500, detail := msg }
    | .body body =>
        .ok { structured := pyStrip (body.getD "\x7b\x7d"),
              model_used := model, note_length := note.length }

/-! ## Image-Caption-Generator-with-LLaVA: backend/services.py and main.py -/

/-- The tone templates of `generate_caption`, as a `dict.get` with the
`"Standard"` entry as default. -/
def standardCaptionPrompt : String := "Describe this image in one detailed sentence."

def getCaptionPrompt (tone : String) : String :=
  if tone = "Standard" then standardCaptionPrompt
  else if tone = "Professional" then "Provide a professional, objective description of the image content suitable for a business context."
  else if tone = "Funny" then "Write a humorous and witty caption for this image."
  else if tone = "Creative" then "Write a creative, poetic, or storytelling caption for this image."
  else if tone = "Social Media" then "Write an engaging social media caption for this image that would get many likes."
  else standardCaptionPrompt

/-- Prompt construction in `generate_caption`: a truthy custom prompt wins,
otherwise the tone template; the hashtag instruction is a single suffix. -/
def buildCaptionPrompt (tone : String) (include_hashtags : Bool)
    (custom_prompt : Option String) : String :=
  let base := if pyTruthy custom_prompt then custom_prompt.getD "" else getCaptionPrompt tone
  if include_hashtags then
    base ++ " Also generate 5 to 10 relevant and trending hashtags at the end of the caption."
  else base

/-- The request `generate_caption` POSTs: the LLaVA model, the rendered
prompt, `stream:false` (the base64 image rides alongside and is not needed by
any claim). -/
def captionRequest (tone : String) (include_hashtags : Bool)
    (custom_prompt : Option String) : InferenceRequest :=
  { model := "llava"
    prompt := buildCaptionPrompt tone include_hashtags custom_prompt
    stream := false }

/-- `generate_caption`: POST the prompt and image; `raise_for_status()` raises
exactly for statuses 400-599, folding those into the `RequestException`
handler, which — like connection refusal and timeout — returns an ordinary
error string; any other exception returns the generic error string.  No
exception escapes. -/
def generate_caption (tone : String) (include_hashtags : Bool)
    (custom_prompt : Option String) (backend : InferenceRequest → ReqOutcome) : String :=
  match backend (captionRequest tone include_hashtags custom_prompt) with
  | .success s body =>
      if 400 ≤ s ∧ s < 600 then
        "Error: Failed to generate caption. Is Ollama running? Details: " ++ statusErrMsg s
      else pyStrip (body.getD "")
  | .connError m =>
      "Error: Failed to generate caption. Is Ollama running? Details: " ++ m
  | .timeout m =>
      "Error: Failed to generate caption. Is Ollama running? Details: " ++ m
  | .otherExn _ => "Error: An unexpected error occurred."

/-- The HTTP reply of `POST /caption/`. -/
structure CaptionReply where
  status : Nat
  caption : String
  deriving DecidableEq

/-- `caption_image` (`POST /caption/`): since `generate_caption` never raises,
FastAPI always answers 200 with the returned text in the `caption` field. -/
def caption_image (tone : String) (include_hashtags : Bool)
    (custom_prompt : Option String) (backend : InferenceRequest → ReqOutcome) : CaptionReply :=
  { status := 200, caption := generate_caption tone include_hashtags custom_prompt backend }

/-- Outcomes on which the caption POST does not produce a usable response:
every raised exception, and any response whose status `raise_for_status()`
rejects (exactly 400-599). -/
def isFailureOutcome : ReqOutcome → Bool
  | .success s _ => decide (400 ≤ s ∧ s < 600)
  | .connError _ => true
  | .timeout _ => true
  | .otherExn _ => true

/-! ## Specification-side view of the language detector

The spec describes `_detect_language` as an ordered rule table consulted for
the first match, with fallback `"code"`.  `languageRules` states that table;
the refinement theorem for C5 proves `detect_language` equal to first-match
over it. -/

def languageRules : List ((String → Bool) × String) :=
  [ (fun c => pyContains c "def " && pyContains c ":", "python"),
    (fun c => pyContains c "function " || pyContains c "const " || pyContains c "let ", "javascript"),
    (fun c => pyContains c "public class " || pyContains c "private ", "java"),
    (fun c => pyContains c "#include", "cpp"),
    (fun c => pyContains c "func " && pyContains c "\x7b", "go"),
    (fun c => pyContains (pyLower c) "<html" || pyContains (pyLower c) "<!doctype", "html"),
    (fun c => pyContains (pyLower c) "select " && pyContains (pyLower c) "from ", "sql") ]

/-- First-match semantics over a rule table, with the generic fallback. -/
def firstMatch : List ((String → Bool) × String) → String → String
  | [], _ => "code"
  | rule :: rest, c => if rule.1 c then rule.2 else firstMatch rest c


/-! ## Shared helper lemmas -/

/-- First-match over a table every rule of which rejects the input falls
through to the generic `"code"` label. -/
theorem firstMatch_of_all_false (rules : List ((String → Bool) × String)) (code : String)
    (h : ∀ rule ∈ rules, rule.1 code = false) : firstMatch rules code = "code" := by
  induction rules with
  | nil => rfl
  | cons r rest ih =>
      have hr := h r (List.mem_cons_self r rest)
      simp only [firstMatch, hr, Bool.false_eq_true, if_false]
      exact ih (fun rule hm => h rule (List.mem_cons_of_mem r hm))

/-! ## Claim theorems -/

/-- C2 (confirmed): `review_code` fails with HTTP 400 exactly when the content
strips to the empty string (detail `"Code cannot be empty"`) or its raw length
exceeds 50,000 characters (detail `"Code too long. ..."`); in both failing
cases no POST to the generate endpoint is issued, and for every other content
exactly one dispatch happens. -/
theorem c2_input_validation (req : CodeReviewRequest)
    (backend : InferenceRequest → ReqOutcome) (elapsed : Nat) :
    (pyStrip req.code = "" →
      review_code req backend elapsed =
        (.error { status_code := 400, detail := "Code cannot be empty" }, 0)) ∧
    (pyStrip req.code ≠ "" → req.code.length > 50000 →
      review_code req backend elapsed =
        (.error { status_code := 400,
                  detail := "Code too long. Maximum 50,000 characters allowed." }, 0)) ∧
    (pyStrip req.code ≠ "" → req.code.length ≤ 50000 →
      (review_code req backend elapsed).2 = 1) ∧
    (errStatus (review_code req backend elapsed).1 = some 400 ↔
      (pyStrip req.code = "" ∨ req.code.length > 50000)) := by
  refine ⟨?_, ?_, ?_, ?_⟩
  · intro h1
    simp [review_code, h1]
  · intro h1 h2
    simp [review_code, h1, h2]
  · intro h1 h2
    have h2' : ¬ req.code.length > 50000 := by omega
    rcases hg : get_review req.code req.review_type req.language backend with err | val
    · cases err <;> simp [review_code, h1, h2', hg]
    · simp [review_code, h1, h2', hg]
  · constructor
    · intro h
      by_cases h1 : pyStrip req.code = ""
      · exact .inl h1
      by_cases h2 : req.code.length > 50000
      · exact .inr h2
      exfalso
      rcases hg : get_review req.code req.review_type req.language backend with err | val
      · cases err <;> simp [review_code, h1, h2, hg, errStatus] at h
      · simp [review_code, h1, h2, hg, errStatus] at h
    · rintro (h1 | h2)
      · simp [review_code, h1, errStatus]
      · by_cases h1 : pyStrip req.code = ""
        · simp [review_code, h1, errStatus]
        · simp [review_code, h1, h2, errStatus]

/-- C2 witness: whitespace-only content is rejected with 400 and zero backend
calls. -/
theorem c2_input_validation_witness :
    pyStrip "   " = "" ∧
    review_code { code := "   " } (fun _ => ReqOutcome.connError "refused") 0 =
      (.error { status_code := 400, detail := "Code cannot be empty" }, 0) :=
  ⟨by decide,
   (c2_input_validation { code := "   " } (fun _ => ReqOutcome.connError "refused") 0).1
     (by decide)⟩

/-- C3 (confirmed): the health probe is a total Boolean function of the GET
outcome, true exactly on a status-200 response and false on every other status
and on every exception; the spec's table {timeout, connection-refused, 404,
200, 500} is checked explicitly. -/
theorem c3_health_probe (o : ReqOutcome) :
    (check_connection o = true ↔ outcomeStatus o = some 200) ∧
    check_connection (.timeout "timed out") = false ∧
    check_connection (.connError "connection refused") = false ∧
    check_connection (.success 404 none) = false ∧
    check_connection (.success 200 none) = true ∧
    check_connection (.success 500 none) = false := by
  refine ⟨?_, rfl, rfl, by decide, rfl, by decide⟩
  cases o <;> simp [check_connection, outcomeStatus]

/-- C3 witness: the probe answers true on a concrete 200 response. -/
theorem c3_health_probe_witness :
    check_connection (.success 200 none) = true ∧
    outcomeStatus (.success 200 none) = some 200 :=
  ⟨(c3_health_probe (.success 200 none)).1.mpr rfl, rfl⟩

/-- C5 (confirmed): `detect_language` equals first-match evaluation of the
fixed rule table in declaration order, falls back to `"code"` when every rule
rejects, and maps `"def f(x): return x"` to `"python"`. -/
theorem c5_language_detection :
    (∀ code, detect_language code = firstMatch languageRules code) ∧
    (∀ code, (∀ rule ∈ languageRules, rule.1 code = false) →
      detect_language code = "code") ∧
    detect_language "def f(x): return x" = "python" := by
  refine ⟨fun _ => rfl, ?_, by decide⟩
  intro code h
  exact (show detect_language code = firstMatch languageRules code from rfl).trans
    (firstMatch_of_all_false languageRules code h)

/-- C5 witness: prose matches no rule and falls back to `"code"`. -/
theorem c5_language_detection_witness :
    (∀ rule ∈ languageRules, rule.1 "hello world" = false) ∧
    detect_language "hello world" = "code" := by
  have h : ∀ rule ∈ languageRules, rule.1 "hello world" = false := by decide
  exact ⟨h, c5_language_detection.2.1 "hello world" h⟩

set_option maxRecDepth 8000 in
/-- C6 (confirmed): template lookup is total — an unregistered review category
resolves to the `"general"` template and an unregistered caption tone to the
`"Standard"` one — and the rendered output is never empty. -/
theorem c6_template_lookup_total (category : String) :
    (category ∉ ["general", "bugs", "quality", "performance", "security"] →
      getReviewPrompt category = generalPrompt) ∧
    (category ∉ ["Standard", "Professional", "Funny", "Creative", "Social Media"] →
      getCaptionPrompt category = standardCaptionPrompt) ∧
    (∀ code language, 0 < (renderTemplate (getReviewPrompt category) code language).length) ∧
    0 < (getCaptionPrompt category).length := by
  refine ⟨?_, ?_, ?_, ?_⟩
  · intro h
    simp only [List.mem_cons, List.not_mem_nil, or_false, not_or] at h
    obtain ⟨h1, h2, h3, h4, h5⟩ := h
    simp [getReviewPrompt, h1, h2, h3, h4, h5]
  · intro h
    simp only [List.mem_cons, List.not_mem_nil, or_false, not_or] at h
    obtain ⟨h1, h2, h3, h4, h5⟩ := h
    simp [getCaptionPrompt, h1, h2, h3, h4, h5]
  · intro code language
    have hpre : 0 < (getReviewPrompt category).pre.length := by
      unfold getReviewPrompt
      repeat' split
      all_goals decide
    simp only [renderTemplate, String.length_append]
    omega
  · unfold getCaptionPrompt
    repeat' split
    all_goals decide

/-- C6 witness: the unregistered category `"haiku"` resolves to both defaults
and renders non-empty output. -/
theorem c6_template_lookup_total_witness :
    ("haiku" ∉ ["general", "bugs", "quality", "performance", "security"]) ∧
    getReviewPrompt "haiku" = generalPrompt ∧
    ("haiku" ∉ ["Standard", "Professional", "Funny", "Creative", "Social Media"]) ∧
    getCaptionPrompt "haiku" = standardCaptionPrompt ∧
    0 < (renderTemplate (getReviewPrompt "haiku") "X" "Y").length := by
  have h := c6_template_lookup_total "haiku"
  exact ⟨by decide, h.1 (by decide), by decide, h.2.1 (by decide), h.2.2.1 "X" "Y"⟩

/-- C7 (confirmed): template rendering is plain interpolation, so for every
review category the rendered prompt contains the content and the language hint
verbatim as contiguous substrings (in particular for content `"X"` and hint
`"Y"`). -/
theorem c7_render_contains (review_type content hint : String) :
    content.data <:+: (renderTemplate (getReviewPrompt review_type) content hint).data ∧
    hint.data <:+: (renderTemplate (getReviewPrompt review_type) content hint).data := by
  constructor
  · refine ⟨((getReviewPrompt review_type).pre ++ hint ++
        (getReviewPrompt review_type).mid).data, (getReviewPrompt review_type).post.data, ?_⟩
    simp [renderTemplate, String.data_append, List.append_assoc]
  · refine ⟨(getReviewPrompt review_type).pre.data, ((getReviewPrompt review_type).mid ++
        content ++ (getReviewPrompt review_type).post).data, ?_⟩
    simp [renderTemplate, String.data_append, List.append_assoc]

/-- C8 (confirmed): every successful review response carries statistics
computed over the input content — newline count plus one, raw character
length, whitespace-token count — and `"a\nb\nc"` yields lines 3, words 3,
characters 5. -/
theorem c8_derived_stats (req : CodeReviewRequest) (backend : InferenceRequest → ReqOutcome)
    (elapsed : Nat) (resp : CodeReviewResponse) :
    ((review_code req backend elapsed).1 = .ok resp →
      resp.stats.lines = req.code.data.count '\n' + 1 ∧
      resp.stats.characters = req.code.length ∧
      resp.stats.words = wordCount req.code) ∧
    (codeStats "a\nb\nc").lines = 3 ∧
    (codeStats "a\nb\nc").words = 3 ∧
    (codeStats "a\nb\nc").characters = 5 := by
  refine ⟨?_, by decide, by decide, by decide⟩
  intro h
  by_cases h1 : pyStrip req.code = ""
  · simp [review_code, h1] at h
  by_cases h2 : req.code.length > 50000
  · simp [review_code, h1, h2] at h
  rcases hg : get_review req.code req.review_type req.language backend with err | val
  · cases err <;> simp [review_code, h1, h2, hg] at h
  · simp [review_code, h1, h2, hg] at h
    rw [← h]
    exact ⟨rfl, rfl, rfl⟩

/-- C8 witness: a concrete successful review of `"a\nb\nc"` carries the
statistics of the input. -/
theorem c8_derived_stats_witness :
    ((review_code { code := "a\nb\nc" } (fun _ => ReqOutcome.success 200 (some "fine")) 0).1 =
      .ok { review := "fine", review_type := "general",
            stats := codeStats "a\nb\nc", response_time := 0 }) ∧
    (codeStats "a\nb\nc").lines = "a\nb\nc".data.count '\n' + 1 ∧
    (codeStats "a\nb\nc").characters = "a\nb\nc".length ∧
    (codeStats "a\nb\nc").words = wordCount "a\nb\nc" := by
  have h := (c8_derived_stats { code := "a\nb\nc" }
      (fun _ => ReqOutcome.success 200 (some "fine")) 0
      { review := "fine", review_type := "general",
        stats := codeStats "a\nb\nc", response_time := 0 }).1 (by rfl)
  exact ⟨by rfl, h⟩

/-- C1 counterexample: the claim requires a connection-refused failure to be
answered with 503 in every variant, but the medical-notes variant answers a
connection-refused backend outcome with HTTP 500. -/
theorem c1_counterexample :
    errStatus (extract_medical_info "Patient has a fever" "llama2"
      (.connError "connection refused")) = some 500 ∧
    (500 : Nat) ≠ 503 :=
  ⟨by decide, by decide⟩

/-- C1 (amended): in the Code-Review variant failures map to 400 (validation),
503 (connection refused), 503 (timeout), 500 (other exception or non-200
status); in the meeting-notes variant upload validation maps to 400,
connection refused to 503, timeout to 504, and other exceptions — including
the `HTTPError` that `raise_for_status` raises exactly for statuses 400-599 —
to 500; the medical-notes variant keeps 400 for empty-note validation but maps
every backend failure kind — connection refused, timeout, and unclassified —
to 500; and the image-caption variant answers HTTP 200 for every outcome. -/
theorem c1_status_mapping_amended
    (req : CodeReviewRequest) (backend : InferenceRequest → ReqOutcome) (elapsed : Nat)
    (msg note model tone : String) (body : Option String) (s : Nat)
    (include_hashtags : Bool) (custom_prompt : Option String) (outcome : ReqOutcome)
    (filename : Option String) :
    ((pyStrip req.code = "" ∨ req.code.length > 50000) →
      errStatus (review_code req backend elapsed).1 = some 400) ∧
    (pyStrip req.code ≠ "" → req.code.length ≤ 50000 →
      errStatus (review_code req (fun _ => .connError msg) elapsed).1 = some 503 ∧
      errStatus (review_code req (fun _ => .timeout msg) elapsed).1 = some 503 ∧
      errStatus (review_code req (fun _ => .otherExn msg) elapsed).1 = some 500 ∧
      (s ≠ 200 → errStatus (review_code req (fun _ => .success s body) elapsed).1 = some 500) ∧
      errStatus (review_code req (fun _ => .success 200 body) elapsed).1 = none) ∧
    ((∀ err, process_audio_validate filename = some err → err.status_code = 400) ∧
     errStatus (call_ollama (.connError msg)) = some 503 ∧
     errStatus (call_ollama (.timeout msg)) = some 504 ∧
     errStatus (call_ollama (.otherExn msg)) = some 500 ∧
     (400 ≤ s → s < 600 → errStatus (call_ollama (.success s body)) = some 500)) ∧
    ((pyStrip note = "" → errStatus (extract_medical_info note model outcome) = some 400) ∧
     (pyStrip note ≠ "" →
       errStatus (extract_medical_info note model (.connError msg)) = some 500 ∧
       errStatus (extract_medical_info note model (.timeout msg)) = some 500 ∧
       errStatus (extract_medical_info note model (.otherExn msg)) = some 500)) ∧
    (caption_image tone include_hashtags custom_prompt backend).status = 200 := by
  refine ⟨?_, ?_, ⟨?_, rfl, rfl, rfl, ?_⟩, ⟨?_, ?_⟩, rfl⟩
  · rintro (h1 | h2)
    · simp [review_code, h1, errStatus]
    · by_cases h1 : pyStrip req.code = ""
      · simp [review_code, h1, errStatus]
      · simp [review_code, h1, h2, errStatus]
  · intro h1 h2
    have h2' : ¬ req.code.length > 50000 := by omega
    refine ⟨?_, ?_, ?_, ?_, ?_⟩
    · simp [review_code, get_review, h1, h2', errStatus]
    · simp [review_code, get_review, h1, h2', errStatus]
    · simp [review_code, get_review, h1, h2', errStatus]
    · intro hs
      simp [review_code, get_review, h1, h2', hs, errStatus]
    · simp [review_code, get_review, h1, h2', errStatus]
  · intro err h
    unfold process_audio_validate at h
    split_ifs at h with hf hext
    all_goals (injection h with h2; subst h2; rfl)
  · intro hs hs6
    simp only [call_ollama]
    rw [if_pos ⟨hs, hs6⟩]
    rfl
  · intro hnote
    simp [extract_medical_info, hnote, errStatus]
  · intro hnote
    refine ⟨?_, ?_, ?_⟩ <;> simp [extract_medical_info, query_llama, hnote, errStatus]

/-- C1 witness: concrete instances of each amended mapping. -/
theorem c1_status_mapping_witness :
    pyStrip "x" ≠ "" ∧ ("x".length ≤ 50000) ∧
    errStatus (review_code { code := "x" } (fun _ => ReqOutcome.connError "m") 0).1 = some 503 ∧
    (process_audio_validate (some "notes.txt") =
      some { status_code := 400,
             detail := "Unsupported file format: txt. Supported formats: mp3, wav, m4a, flac, ogg" }) ∧
    ({ status_code := 400,
       detail := "Unsupported file format: txt. Supported formats: mp3, wav, m4a, flac, ogg" } :
      HTTPError).status_code = 400 ∧
    errStatus (call_ollama (.timeout "m")) = some 504 ∧
    ((400 : Nat) ≤ 500 ∧ (500 : Nat) < 600) ∧
    errStatus (call_ollama (.success 500 none)) = some 500 ∧
    pyStrip "Patient has a fever" ≠ "" ∧
    errStatus (extract_medical_info "Patient has a fever" "llama2" (.timeout "m")) = some 500 ∧
    (caption_image "Standard" false none (fun _ => ReqOutcome.connError "m")).status = 200 := by
  have h := c1_status_mapping_amended { code := "x" } (fun _ => ReqOutcome.connError "m") 0
    "m" "Patient has a fever" "llama2" "Standard" none 500 false none (.connError "m")
    (some "notes.txt")
  refine ⟨by decide, by decide, (h.2.1 (by decide) (by decide)).1, by decide,
    h.2.2.1.1 _ (by decide), h.2.2.1.2.2.1, ⟨by decide, by decide⟩,
    h.2.2.1.2.2.2.2 (by decide) (by decide), by decide,
    (h.2.2.2.1.2 (by decide)).2.1, h.2.2.2.2⟩

/-- C4 counterexample: in the meeting-notes variant a status-200 response with
no `"response"` field is not turned into the empty string — the handler fails
with HTTP 500 (a `KeyError` caught by the generic handler). -/
theorem c4_counterexample :
    errStatus (call_ollama (.success 200 none)) = some 500 ∧
    call_ollama (.success 200 none) ≠ .ok "" := by
  refine ⟨by decide, ?_⟩
  have h : call_ollama (.success 200 none) =
      .error { status_code := 500, detail := "Error calling Ollama: " ++ keyErrorMsg } := rfl
  rw [h]
  simp

/-- C4 (amended): on a status-200 response whose JSON body lacks the expected
text field, the Code-Review gateway and the image-caption service return the
empty string; the medical-notes variant substitutes the placeholder text
`\x7b\x7d` instead; and the meeting-notes variant raises a `KeyError` that is
mapped to HTTP 500 rather than returning anything. -/
theorem c4_missing_field_amended (code review_type note model tone : String)
    (language custom_prompt : Option String) (include_hashtags : Bool) :
    get_review code review_type language (fun _ => .success 200 none) = .ok "" ∧
    generate_caption tone include_hashtags custom_prompt (fun _ => .success 200 none) = "" ∧
    errStatus (call_ollama (.success 200 none)) = some 500 ∧
    (pyStrip note ≠ "" →
      extract_medical_info note model (.success 200 none) =
        .ok { structured := "\x7b\x7d", model_used := model, note_length := note.length }) := by
  refine ⟨rfl, rfl, rfl, ?_⟩
  intro h
  unfold extract_medical_info
  rw [if_neg h]
  rfl

/-- C4 witness: the amended behaviour at concrete inputs. -/
theorem c4_missing_field_witness :
    get_review "print(1)" "general" none (fun _ => .success 200 none) = .ok "" ∧
    pyStrip "Patient has a fever" ≠ "" ∧
    extract_medical_info "Patient has a fever" "llama2" (.success 200 none) =
      .ok { structured := "\x7b\x7d", model_used := "llama2",
            note_length := "Patient has a fever".length } := by
  have h := c4_missing_field_amended "print(1)" "general" "Patient has a fever" "llama2"
    "Standard" none none false
  exact ⟨h.1, by decide, h.2.2.2 (by decide)⟩

/-- C9 (confirmed): the caption service never raises — the endpoint's status is
200 for every backend behaviour, and on every failing outcome (connection
refused, timeout, a status in the 400-599 window `raise_for_status` rejects,
or any other exception) the caption returned is an ordinary string beginning
with `"Error:"`. -/
theorem c9_caption_never_raises (tone : String) (include_hashtags : Bool)
    (custom_prompt : Option String) (backend : InferenceRequest → ReqOutcome) :
    (caption_image tone include_hashtags custom_prompt backend).status = 200 ∧
    (isFailureOutcome (backend (captionRequest tone include_hashtags custom_prompt)) = true →
      ∃ rest, generate_caption tone include_hashtags custom_prompt backend = "Error:" ++ rest ∧
        (caption_image tone include_hashtags custom_prompt backend).caption =
          "Error:" ++ rest) := by
  refine ⟨rfl, ?_⟩
  intro hfail
  have hsplit : ("Error: Failed to generate caption. Is Ollama running? Details: " : String) =
      "Error:" ++ " Failed to generate caption. Is Ollama running? Details: " := by decide
  have hcap : (caption_image tone include_hashtags custom_prompt backend).caption =
      generate_caption tone include_hashtags custom_prompt backend := rfl
  cases hb : backend (captionRequest tone include_hashtags custom_prompt) with
  | success s body =>
      have hs : 400 ≤ s ∧ s < 600 := by
        have h9 := hfail
        rw [hb] at h9
        simpa [isFailureOutcome] using h9
      refine ⟨" Failed to generate caption. Is Ollama running? Details: " ++ statusErrMsg s,
        ?_, ?_⟩
      · simp only [generate_caption, hb]
        rw [if_pos hs, hsplit, String.append_assoc]
      · rw [hcap]
        simp only [generate_caption, hb]
        rw [if_pos hs, hsplit, String.append_assoc]
  | connError m =>
      refine ⟨" Failed to generate caption. Is Ollama running? Details: " ++ m, ?_, ?_⟩
      · simp only [generate_caption, hb]
        rw [hsplit, String.append_assoc]
      · rw [hcap]
        simp only [generate_caption, hb]
        rw [hsplit, String.append_assoc]
  | timeout m =>
      refine ⟨" Failed to generate caption. Is Ollama running? Details: " ++ m, ?_, ?_⟩
      · simp only [generate_caption, hb]
        rw [hsplit, String.append_assoc]
      · rw [hcap]
        simp only [generate_caption, hb]
        rw [hsplit, String.append_assoc]
  | otherExn m =>
      refine ⟨" An unexpected error occurred.", ?_, ?_⟩
      · simp only [generate_caption, hb]
        decide
      · rw [hcap]
        simp only [generate_caption, hb]
        decide

/-- C9 witness: a connection-refused backend yields a 200 reply whose caption
starts with `"Error:"`. -/
theorem c9_caption_never_raises_witness :
    isFailureOutcome ((fun _ => ReqOutcome.connError "refused")
      (captionRequest "Standard" false none)) = true ∧
    (caption_image "Standard" false none (fun _ => ReqOutcome.connError "refused")).status = 200 ∧
    (∃ rest, generate_caption "Standard" false none (fun _ => ReqOutcome.connError "refused") =
      "Error:" ++ rest) := by
  have h := c9_caption_never_raises "Standard" false none (fun _ => ReqOutcome.connError "refused")
  obtain ⟨rest, hr, _⟩ := h.2 rfl
  exact ⟨rfl, h.1, ⟨rest, hr⟩⟩

/-- C10 counterexample: the claim's "for every submitted code string" fails at
the empty string — pydantic's `min_length=1` rejects the request the handler
itself constructs, so the endpoint performs no review and answers HTTP 500
with zero backend calls instead of returning review text. -/
theorem c10_counterexample :
    review_code_legacy "" (fun _ => ReqOutcome.success 200 (some "ok")) 0 =
      (.error { status_code := 500, detail := "Internal Server Error" }, 0) ∧
    errStatus (review_code_legacy "" (fun _ => ReqOutcome.success 200 (some "ok")) 0).1 =
      some 500 := by
  exact ⟨rfl, rfl⟩

/-- C10 (amended): for every code string that passes pydantic validation
(length ≥ 1) the legacy form endpoint builds its request with the model
defaults (`review_type = "general"`, no language hint) and returns only the
review text of the full response, discarding the other fields, with error
replies propagating unchanged; the empty string fails `CodeReviewRequest`
validation inside the handler and surfaces as an unhandled `ValidationError`
(HTTP 500, no dispatch). -/
theorem c10_legacy_endpoint (code : String) (backend : InferenceRequest → ReqOutcome)
    (elapsed : Nat) :
    (1 ≤ code.length →
      mkCodeReviewRequest code = some { code := code } ∧
      ({ code := code } : CodeReviewRequest).review_type = "general" ∧
      ({ code := code } : CodeReviewRequest).language = none ∧
      (∀ resp, (review_code { code := code } backend elapsed).1 = .ok resp →
        (review_code_legacy code backend elapsed).1 = .ok { review := resp.review }) ∧
      (∀ e, (review_code { code := code } backend elapsed).1 = .error e →
        (review_code_legacy code backend elapsed).1 = .error e)) ∧
    review_code_legacy "" backend elapsed =
      (.error { status_code := 500, detail := "Internal Server Error" }, 0) := by
  refine ⟨?_, rfl⟩
  intro hcode
  have hmk : mkCodeReviewRequest code = some { code := code } := by
    simp [mkCodeReviewRequest, hcode]
  refine ⟨hmk, rfl, rfl, ?_, ?_⟩
  · intro resp h
    rcases hrc : review_code { code := code } backend elapsed with ⟨res, n⟩
    rw [hrc] at h
    simp only at h
    subst h
    simp [review_code_legacy, hmk, hrc]
  · intro e h
    rcases hrc : review_code { code := code } backend elapsed with ⟨res, n⟩
    rw [hrc] at h
    simp only at h
    subst h
    simp [review_code_legacy, hmk, hrc]

/-- C10 witness: a concrete valid code string passes validation and the legacy
call returns only the review text. -/
theorem c10_legacy_endpoint_witness :
    (1 ≤ ("print(1)" : String).length) ∧
    ((review_code { code := "print(1)" } (fun _ => ReqOutcome.success 200 (some "looks good")) 0).1 =
      .ok { review := "looks good", review_type := "general",
            stats := codeStats "print(1)", response_time := 0 }) ∧
    (review_code_legacy "print(1)" (fun _ => ReqOutcome.success 200 (some "looks good")) 0).1 =
      .ok { review := "looks good" } := by
  have h := (c10_legacy_endpoint "print(1)"
      (fun _ => ReqOutcome.success 200 (some "looks good")) 0).1 (by decide)
  exact ⟨by decide, by rfl, h.2.2.2.1
    { review := "looks good", review_type := "general",
      stats := codeStats "print(1)", response_time := 0 } (by rfl)⟩
